import Mathlib

/-!
Verification of the cmu1394 repository: a Python binding package
(src/__init__.py) re-exporting a native interop module, and a Qt demo
viewer (src/cmu1394Viewer.py) that polls a camera on a timer and renders
frames.

The viewer is embedded shallowly: each Qt slot becomes a pure function
from an explicit sidebar state (the mutable attributes of the SideBar and
MainWindow objects) to a new state paired with a trace of the externally
visible calls it performs (driver calls, rendering calls, label updates).
A raised Python exception is modelled as a trailing raiseError event with
no further effects.
-/

namespace Cmu1394

/-- An opaque frame buffer as returned by Camera.get_data.  The viewer never
inspects pixels, so only identity matters. -/
structure Image where
  data : Nat
  deriving DecidableEq, Repr

/-- The driver-side camera object, as the viewer observes it: its
description string, its supported format strings, its current format, and
its supported framerates (frames per second). -/
structure Camera where
  description : String
  supported_formats : List String
  format : String
  supported_framerates : List Int
  deriving DecidableEq, Repr

/-- Externally visible calls performed by the viewer code: driver calls
(stop, get_data, set_framerate), rendering calls (figure Clear, imshow
creating a texture, SetData replacing its data), the fps label update, and
a raised exception. -/
inductive Event where
  | stop (c : Camera)
  | get_data (c : Camera)
  | clearFigure
  | imshow (im : Image)
  | setTextureData (im : Image)
  | set_framerate (c : Camera) (fps : Int)
  | setLabelText (t : String)
  | raiseError
  deriving DecidableEq, Repr

/-- The mutable state of the viewer: SideBar._theCam, SideBar._texture
(holding the image data currently displayed), _listCameras._cams, the item
strings of the two combo boxes, and the fps label text. -/
structure SideState where
  theCam : Option Camera
  texture : Option Image
  cams : List Camera
  listCameraItems : List String
  listFormats : List String
  labelFps : String
  deriving DecidableEq, Repr

/-! ### The format comparator (cmu1394Viewer.py lines 193-201)

Python: axy = a.split(chr 32)[0].split(chr 120); an = int(axy[0]) * int(axy[1]).
str.split with an explicit separator keeps empty pieces and always returns at
least one piece, matching String.splitOn.  int(...) raises ValueError on a
non-numeric string and indexing raises IndexError when there is no separator;
both failures are modelled as none. -/

/-- str.split with a one-character separator, on the character list: split at
every occurrence of the separator, keeping empty pieces, with at least one
piece for the empty string. -/
def splitOnCharList (sep : Char) : List Char → List (List Char)
  | [] => [[]]
  | c :: cs =>
    if c = sep then [] :: splitOnCharList sep cs
    else
      match splitOnCharList sep cs with
      | [] => [[c]]
      | h :: t => (c :: h) :: t

/-- Python s.split(sep) for a one-character separator. -/
def pySplit (s : String) (sep : Char) : List String :=
  (splitOnCharList sep s.data).map (fun cs => String.mk cs)

/-- Value of a nonempty all-digit suffix, none on any non-digit. -/
def digitsValAux : List Char → Nat → Option Nat
  | [], acc => some acc
  | c :: rest, acc =>
    if c.isDigit then digitsValAux rest (10 * acc + (c.toNat - 48))
    else none

/-- Python int(s) on the strings the viewer feeds it: an optional minus sign
followed by decimal digits; anything else (including the empty string, where
Python also raises) is none.  (Python int additionally strips whitespace and
accepts a plus sign; WxH format strings never use those forms.) -/
def pyInt? (s : String) : Option Int :=
  match s.data with
  | [] => none
  | c :: rest =>
    if c = Char.ofNat 45 then
      if rest = [] then none
      else (digitsValAux rest 0).map (fun n => -(n : Int))
    else (digitsValAux s.data 0).map (fun n => (n : Int))

/-- Total pixel count W*H parsed from a format string, none when the parse
fails (where Python raises). -/
def pixelCount (a : String) : Option Int := do
  let axy := pySplit ((pySplit a (Char.ofNat 32)).headD "") (Char.ofNat 120)
  let w ← axy[0]?
  let h ← axy[1]?
  let wn ← pyInt? w
  let hn ← pyInt? h
  pure (wn * hn)

/-- The cmp-style comparator passed to formats.sort: compare by pixel count,
break ties by string comparison; returns -1 or 1, never 0.  none models the
ValueError / IndexError Python raises on a malformed format string. -/
def sorter (a b : String) : Option Int := do
  let an ← pixelCount a
  let bn ← pixelCount b
  if an = bn then
    pure (if a > b then 1 else -1)
  else
    pure (if an > bn then 1 else -1)

/-- The boolean le relation induced by sorter, used by the stable sort:
keep a before b exactly when sorter a b is at most 0.  On a malformed
string, where Python would have raised, the pixel count defaults to 0 so
that the relation stays total and transitive; every claim about the sort
assumes well-formed format strings, making that branch irrelevant. -/
def fmtLe (a b : String) : Bool :=
  match sorter a b with
  | some c => c ≤ 0
  | none =>
    let an := (pixelCount a).getD 0
    let bn := (pixelCount b).getD 0
    decide (an < bn) || (decide (an = bn) && !decide (b < a))

/-- formats.sort(cmp=sorter): Python list.sort is a stable merge sort that
keeps the left element when the comparator says it is not greater, i.e. it
sorts by the le relation fmtLe. -/
def sortFormats (formats : List String) : List String :=
  formats.mergeSort fmtLe

/-- The ordering the spec claims for the format dropdown: ascending total
pixel count, ties in ascending string order.  Trivially true when a string
is malformed (the claims only cover well-formed ones). -/
def specLe (a b : String) : Prop :=
  match pixelCount a, pixelCount b with
  | some an, some bn => an < bn ∨ (an = bn ∧ a ≤ b)
  | _, _ => True

/-- Boolean version of specLe, giving it decidability. -/
def specLeB (a b : String) : Bool :=
  match pixelCount a, pixelCount b with
  | some an, some bn => decide (an < bn) || (decide (an = bn) && decide (a ≤ b))
  | _, _ => true

theorem specLeB_iff (a b : String) : specLeB a b = true ↔ specLe a b := by
  unfold specLeB specLe
  rcases pixelCount a with _ | an <;> rcases pixelCount b with _ | bn <;> simp

instance (a b : String) : Decidable (specLe a b) :=
  decidable_of_iff (specLeB a b = true) (specLeB_iff a b)

/-! ### The Qt slot handlers, as state-and-trace functions -/

/-- Text set on the fps label: (fps as an integer) followed by a space and
the letters fps. -/
def fpsText (fps : Int) : String :=
  toString fps ++ " fps"

/-- SideBar.setFrameRate (lines 237-256): when a camera is active, pick 30
fps when supported, otherwise the maximum supported framerate (max of an
empty list raises, modelled as a raiseError event with the state
unchanged), set it on the camera and show it on the label; with no camera,
just show 0 fps. -/
def setFrameRateH (s : SideState) : SideState × List Event :=
  match s.theCam with
  | some c =>
    let fpss := c.supported_framerates
    if (30 : Int) ∈ fpss then
      ({ s with labelFps := fpsText 30 },
        [Event.set_framerate c 30, Event.setLabelText (fpsText 30)])
    else
      match fpss.max? with
      | some fps =>
        ({ s with labelFps := fpsText fps },
          [Event.set_framerate c fps, Event.setLabelText (fpsText fps)])
      | none => (s, [Event.raiseError])
  | none =>
    ({ s with labelFps := "0 fps" }, [Event.setLabelText "0 fps"])

/-- SideBar.refreshFormatList (lines 178-211): with a camera active, fill
the format box with the sorted supported formats, else with a single
placeholder; then setFrameRate.  (The setCurrentIndex bookkeeping for the
current format is UI state not modelled here.) -/
def refreshFormatListH (s : SideState) : SideState × List Event :=
  match s.theCam with
  | some c =>
    setFrameRateH { s with listFormats := sortFormats c.supported_formats }
  | none =>
    setFrameRateH { s with listFormats := ["<No camera selected>"] }

/-- SideBar.activateCamera (lines 153-175): stop the current camera if any,
clear the figure and the texture, then select camera index-1 of the stored
list (index 0 deselects; an out-of-range index raises IndexError after the
stop and the clear, leaving _theCam unchanged), and refresh the format
list. -/
def activateCameraH (s : SideState) (index : Nat) : SideState × List Event :=
  let stopEvs : List Event :=
    match s.theCam with
    | some c => [Event.stop c]
    | none => []
  let s1 := { s with texture := none }
  if index = 0 then
    let r := refreshFormatListH { s1 with theCam := none }
    (r.1, stopEvs ++ [Event.clearFigure] ++ r.2)
  else
    match s.cams[index - 1]? with
    | some c =>
      let r := refreshFormatListH { s1 with theCam := some c }
      (r.1, stopEvs ++ [Event.clearFigure] ++ r.2)
    | none => (s1, stopEvs ++ [Event.clearFigure, Event.raiseError])

/-- SideBar.refreshCameraList (lines 128-150): query the driver for the
camera list (passed here as the argument cams), store it, fill the camera
box with a count placeholder followed by each description (or a single
no-cameras entry), then reset the selection via activateCamera 0. -/
def refreshCameraListH (s : SideState) (cams : List Camera) : SideState × List Event :=
  let items :=
    if cams ≠ [] then
      ("<No camera (" ++ toString cams.length ++ " available)>")
        :: cams.map (fun c => c.description)
    else
      ["<No cameras detected>"]
  activateCameraH { s with cams := cams, listCameraItems := items } 0

/-- SideBar.onTimerTimeout (lines 103-125): do nothing without a camera;
otherwise pull a frame (im is what get_data returns), and either create the
display texture from it (first tick after a reselection, when _texture is
None) or replace the displayed data with it. -/
def onTimerTimeout (s : SideState) (im : Image) : SideState × List Event :=
  match s.theCam with
  | none => (s, [])
  | some c =>
    match s.texture with
    | none =>
      ({ s with texture := some im }, [Event.get_data c, Event.imshow im])
    | some _ =>
      ({ s with texture := some im }, [Event.get_data c, Event.setTextureData im])

/-- MainWindow.closeEvent (lines 44-49): after the widget close, stop the
sidebar camera when there is one. -/
def closeEventH (s : SideState) : List Event :=
  match s.theCam with
  | some c => [Event.stop c]
  | none => []

/-! ### The binding package (src/__init__.py lines 40-42) -/

/-- A Python runtime object, identified only by its identity (id()). -/
structure PyObject where
  id : Nat
  deriving DecidableEq, Repr

/-- The names the compiled interop module cmu1394_cython exposes. -/
structure Cmu1394CythonModule where
  get_cameras : PyObject
  Camera : PyObject

/-- The names the cmu1394 package exposes after import. -/
structure Cmu1394Package where
  get_cameras : PyObject
  Camera : PyObject

/-- Lines 41-42 of src/__init__.py: plain assignments binding the package
names to the interop module attributes. -/
def injectNames (m : Cmu1394CythonModule) : Cmu1394Package :=
  { get_cameras := m.get_cameras, Camera := m.Camera }

/-! ### Helper lemmas -/

/-- fmtLe compares the keys (defaulted pixel count, string) lexicographically,
in every case of sorter. -/
theorem fmtLe_eq (a b : String) :
    fmtLe a b =
      (decide ((pixelCount a).getD 0 < (pixelCount b).getD 0) ||
        (decide ((pixelCount a).getD 0 = (pixelCount b).getD 0) && !decide (b < a))) := by
  unfold fmtLe sorter
  rcases ha : pixelCount a with _ | an <;> rcases hb : pixelCount b with _ | bn <;>
    simp only [ha, hb, Option.bind_eq_bind, Option.none_bind, Option.some_bind,
      Option.getD_some, Option.getD_none]
  by_cases hab : an = bn
  · subst hab
    by_cases hba : b < a <;> simp [hba, gt_iff_lt]
  · by_cases hlt : bn < an
    · have : ¬ an < bn := by omega
      simp [hab, hlt, gt_iff_lt, this]
    · have : an < bn := by omega
      simp [hab, hlt, gt_iff_lt, this]

theorem fmtLe_total (a b : String) : (fmtLe a b || fmtLe b a) = true := by
  rw [fmtLe_eq, fmtLe_eq]
  rcases lt_trichotomy ((pixelCount a).getD 0) ((pixelCount b).getD 0) with h | h | h
  · simp [h]
  · rcases le_or_lt b a with hba | hba
    · simp [h, not_lt.mpr hba]
    · simp [h, hba, not_lt.mpr hba.le]
  · simp [h]

theorem fmtLe_trans (a b c : String) :
    fmtLe a b = true → fmtLe b c = true → fmtLe a c = true := by
  rw [fmtLe_eq, fmtLe_eq, fmtLe_eq]
  simp only [Bool.or_eq_true, Bool.and_eq_true, decide_eq_true_eq,
    Bool.not_eq_eq_eq_not, Bool.not_true, decide_eq_false_iff_not]
  rintro (hab | ⟨hab, hba⟩) (hbc | ⟨hbc, hcb⟩)
  · exact Or.inl (hab.trans hbc)
  · exact Or.inl (hbc ▸ hab)
  · exact Or.inl (hab ▸ hbc)
  · refine Or.inr ⟨hab.trans hbc, fun hca => ?_⟩
    exact absurd (lt_of_lt_of_le hca (not_lt.mp hba)) (not_lt.mpr (not_lt.mp hcb))

/-- setFrameRate only ever touches the fps label; every other attribute of
the sidebar state is unchanged. -/
theorem setFrameRateH_keeps (s : SideState) :
    (setFrameRateH s).1.theCam = s.theCam ∧ (setFrameRateH s).1.texture = s.texture ∧
    (setFrameRateH s).1.cams = s.cams ∧
    (setFrameRateH s).1.listCameraItems = s.listCameraItems ∧
    (setFrameRateH s).1.listFormats = s.listFormats := by
  unfold setFrameRateH
  split
  · dsimp only
    split
    · exact ⟨rfl, rfl, rfl, rfl, rfl⟩
    · split <;> exact ⟨rfl, rfl, rfl, rfl, rfl⟩
  · exact ⟨rfl, rfl, rfl, rfl, rfl⟩

/-- setFrameRate performs no driver stop and no frame pull. -/
theorem setFrameRateH_events (s : SideState) (c : Camera) :
    Event.stop c ∉ (setFrameRateH s).2 ∧ Event.get_data c ∉ (setFrameRateH s).2 := by
  unfold setFrameRateH
  split
  · dsimp only
    split
    · simp
    · split <;> simp
  · simp

/-- refreshFormatList touches only the format list and the fps label. -/
theorem refreshFormatListH_keeps (s : SideState) :
    (refreshFormatListH s).1.theCam = s.theCam ∧ (refreshFormatListH s).1.texture = s.texture ∧
    (refreshFormatListH s).1.cams = s.cams ∧
    (refreshFormatListH s).1.listCameraItems = s.listCameraItems := by
  unfold refreshFormatListH
  split <;>
    · obtain ⟨h1, h2, h3, h4, _⟩ := setFrameRateH_keeps _
      exact ⟨h1, h2, h3, h4⟩

/-- With an active camera, the format list after refreshFormatList is the
sorted supported format list. -/
theorem refreshFormatListH_listFormats (s : SideState) (c : Camera)
    (hc : s.theCam = some c) :
    (refreshFormatListH s).1.listFormats = sortFormats c.supported_formats := by
  unfold refreshFormatListH
  rw [hc]
  dsimp only
  exact (setFrameRateH_keeps _).2.2.2.2

/-- refreshFormatList performs no driver stop and no frame pull. -/
theorem refreshFormatListH_events (s : SideState) (c : Camera) :
    Event.stop c ∉ (refreshFormatListH s).2 ∧ Event.get_data c ∉ (refreshFormatListH s).2 := by
  unfold refreshFormatListH
  split <;> exact setFrameRateH_events _ c

/-- activateCamera leaves the camera list and its item strings alone. -/
theorem activateCameraH_keeps (s : SideState) (i : Nat) :
    (activateCameraH s i).1.cams = s.cams ∧
    (activateCameraH s i).1.listCameraItems = s.listCameraItems := by
  unfold activateCameraH
  dsimp only
  split
  · obtain ⟨_, _, h3, h4⟩ := refreshFormatListH_keeps _
    exact ⟨h3, h4⟩
  · split
    · obtain ⟨_, _, h3, h4⟩ := refreshFormatListH_keeps _
      exact ⟨h3, h4⟩
    · exact ⟨rfl, rfl⟩

/-- activateCamera always clears the texture, and the clear survives the
format refresh. -/
theorem activateCameraH_texture (s : SideState) (i : Nat) :
    (activateCameraH s i).1.texture = none := by
  unfold activateCameraH
  dsimp only
  split
  · exact (refreshFormatListH_keeps _).2.1
  · split
    · exact (refreshFormatListH_keeps _).2.1
    · rfl

/-- The trace of activateCamera: a stop of the previously active camera (if
any), then the figure clear, then events containing no further stop. -/
theorem activateCameraH_trace (s : SideState) (i : Nat) :
    ∃ evs, (activateCameraH s i).2 =
      ((match s.theCam with | some c => [Event.stop c] | none => []) ++
        [Event.clearFigure] ++ evs) ∧
      ∀ c, Event.stop c ∉ evs := by
  unfold activateCameraH
  dsimp only
  split
  · exact ⟨(refreshFormatListH _).2, rfl, fun c => (refreshFormatListH_events _ c).1⟩
  · split
    · exact ⟨(refreshFormatListH _).2, rfl, fun c => (refreshFormatListH_events _ c).1⟩
    · exact ⟨[Event.raiseError], by simp, by simp⟩

/-! ### The claims -/

/-- Claim C3: when the main window receives a close event, the active
camera, if any, gets exactly one stop() call, and with no active camera
nothing is stopped (the trace is empty). -/
theorem closeEvent_stops_once (s : SideState) :
    (∀ c, s.theCam = some c →
      closeEventH s = [Event.stop c] ∧ (closeEventH s).count (Event.stop c) = 1) ∧
    (s.theCam = none → closeEventH s = []) := by
  constructor
  · intro c hc
    unfold closeEventH
    rw [hc]
    exact ⟨rfl, by simp⟩
  · intro hc
    unfold closeEventH
    rw [hc]

/-- Claim C4: a timer tick without a selected camera does nothing (no
get_data call, no rendering, state unchanged); a tick with a selected
camera calls get_data on it exactly once and renders the returned image. -/
theorem onTimerTimeout_polls (s : SideState) (im : Image) :
    (s.theCam = none → onTimerTimeout s im = (s, [])) ∧
    (∀ c, s.theCam = some c →
      ((onTimerTimeout s im).2.count (Event.get_data c) = 1) ∧
      (onTimerTimeout s im).1.texture = some im) := by
  constructor
  · intro hc
    unfold onTimerTimeout
    rw [hc]
  · intro c hc
    unfold onTimerTimeout
    rw [hc]
    rcases s.texture with _ | t <;> simp

/-- Claim C6: after a tick with an active camera the displayed texture holds
exactly the frame get_data just returned; the first tick after a
(re)selection creates the texture via imshow, and every later tick replaces
the displayed data via SetData. -/
theorem onTimerTimeout_displays_latest (s : SideState) (c : Camera) (im : Image)
    (hc : s.theCam = some c) :
    (onTimerTimeout s im).1.texture = some im ∧
    (s.texture = none →
      (onTimerTimeout s im).2 = [Event.get_data c, Event.imshow im]) ∧
    (∀ t, s.texture = some t →
      (onTimerTimeout s im).2 = [Event.get_data c, Event.setTextureData im]) := by
  unfold onTimerTimeout
  rw [hc]
  rcases ht : s.texture with _ | t <;> simp

/-- Claim C7: the package namespace binds get_cameras and Camera to the very
objects of the interop module, unchanged. -/
theorem injectNames_reexports (m : Cmu1394CythonModule) :
    (injectNames m).get_cameras = m.get_cameras ∧ (injectNames m).Camera = m.Camera :=
  ⟨rfl, rfl⟩

/-- Claim C8: at most one camera is ever active (the _theCam slot): selecting
stops the previously active camera exactly once and clears the displayed
texture; index 0 deselects, and index i with 1 <= i <= n selects camera
i-1 of the most recently stored list. -/
theorem activateCamera_exclusive (s : SideState) (i : Nat) :
    ((activateCameraH s 0).1.theCam = none) ∧
    (1 ≤ i → i ≤ s.cams.length → (activateCameraH s i).1.theCam = s.cams[i - 1]?) ∧
    ((activateCameraH s i).1.texture = none) ∧
    (∀ c, s.theCam = some c → ((activateCameraH s i).2).count (Event.stop c) = 1) ∧
    (s.theCam = none → ∀ c, Event.stop c ∉ (activateCameraH s i).2) := by
  refine ⟨?_, ?_, activateCameraH_texture s i, ?_, ?_⟩
  · unfold activateCameraH
    dsimp only
    rw [if_pos rfl]
    exact (refreshFormatListH_keeps _).1
  · intro h1 h2
    have hlt : i - 1 < s.cams.length := by omega
    unfold activateCameraH
    dsimp only
    rw [if_neg (by omega), List.getElem?_eq_getElem hlt]
    dsimp only
    exact (refreshFormatListH_keeps _).1
  · intro c hc
    obtain ⟨evs, htr, hno⟩ := activateCameraH_trace s i
    rw [htr, hc]
    have h0 : evs.count (Event.stop c) = 0 := List.count_eq_zero.mpr (hno c)
    simp [List.count_append, h0]
  · intro hc c
    obtain ⟨evs, htr, hno⟩ := activateCameraH_trace s i
    rw [htr, hc]
    simp [hno c]

/-- Claim C5: after refreshCameraList with n enumerated cameras, the camera
box holds the count placeholder followed by the n descriptions in order
(n+1 entries); with none it holds the single no-cameras entry. -/
theorem refreshCameraList_items (s : SideState) (cams : List Camera) :
    (cams = [] →
      (refreshCameraListH s cams).1.listCameraItems = ["<No cameras detected>"]) ∧
    (cams ≠ [] →
      (refreshCameraListH s cams).1.listCameraItems =
        ("<No camera (" ++ toString cams.length ++ " available)>")
          :: cams.map (fun c => c.description) ∧
      (refreshCameraListH s cams).1.listCameraItems.length = cams.length + 1 ∧
      ∀ i, i < cams.length →
        (refreshCameraListH s cams).1.listCameraItems[i + 1]? =
          (cams[i]?).map (fun c => c.description)) := by
  constructor
  · intro h
    subst h
    unfold refreshCameraListH
    dsimp only
    rw [(activateCameraH_keeps _ 0).2]
    simp
  · intro h
    have hitems : (refreshCameraListH s cams).1.listCameraItems =
        ("<No camera (" ++ toString cams.length ++ " available)>")
          :: cams.map (fun c => c.description) := by
      unfold refreshCameraListH
      dsimp only
      rw [(activateCameraH_keeps _ 0).2]
      dsimp only
      rw [if_pos h]
    refine ⟨hitems, ?_, ?_⟩
    · rw [hitems]
      simp
    · intro i hi
      rw [hitems]
      simp [List.getElem?_map]

/-- A camera whose only supported framerate is 60 fps. -/
def cam60 : Camera :=
  { description := "Cam 60", supported_formats := ["640x480 RGB"],
    format := "640x480 RGB", supported_framerates := [60] }

/-- Sidebar state with cam60 active. -/
def state60 : SideState :=
  { theCam := some cam60, texture := none, cams := [cam60],
    listCameraItems := [], listFormats := [], labelFps := "" }

/-- Claim C2 counterexample: for an active camera with nonempty supported
framerates [60] (30 absent), setFrameRate sets 60 fps on the camera, which
is not at most the claimed preferred maximum of 30. -/
theorem setFrameRate_not_capped :
    cam60.supported_framerates ≠ [] ∧
    Event.set_framerate cam60 60 ∈ (setFrameRateH state60).2 ∧
    ¬ ((60 : Int) ≤ 30) := by decide

/-- Claim C2 (amended): for every active camera with nonempty supported
framerates, setFrameRate sets exactly 30 whenever 30 is supported, and
otherwise the maximum supported framerate (which may exceed 30). -/
theorem setFrameRate_selects (s : SideState) (c : Camera)
    (hc : s.theCam = some c) (hne : c.supported_framerates ≠ []) :
    ∃ fps, Event.set_framerate c fps ∈ (setFrameRateH s).2 ∧
      ((30 : Int) ∈ c.supported_framerates → fps = 30) ∧
      ((30 : Int) ∉ c.supported_framerates →
        c.supported_framerates.max? = some fps) := by
  unfold setFrameRateH
  rw [hc]
  dsimp only
  by_cases h30 : (30 : Int) ∈ c.supported_framerates
  · rw [if_pos h30]
    exact ⟨30, by simp, fun _ => rfl, fun hn => absurd h30 hn⟩
  · rw [if_neg h30]
    rcases hm : c.supported_framerates.max? with _ | fps
    · exact absurd (List.max?_eq_none_iff.mp hm) hne
    · exact ⟨fps, by simp, fun hmem => absurd hmem h30, fun _ => rfl⟩

/-- Claim C9: an active camera reporting no framerates makes setFrameRate
raise (max of an empty sequence) with no framerate set and no label update
(the state is unchanged and the only event is the error); a nonempty
framerate list never reaches that branch. -/
theorem setFrameRate_empty_raises (s : SideState) (c : Camera)
    (hc : s.theCam = some c) :
    (c.supported_framerates = [] → setFrameRateH s = (s, [Event.raiseError])) ∧
    (c.supported_framerates ≠ [] → Event.raiseError ∉ (setFrameRateH s).2) := by
  constructor
  · intro he
    unfold setFrameRateH
    rw [hc]
    dsimp only
    rw [he]
    simp
  · intro hne
    unfold setFrameRateH
    rw [hc]
    dsimp only
    by_cases h30 : (30 : Int) ∈ c.supported_framerates
    · rw [if_pos h30]
      simp
    · rw [if_neg h30]
      rcases hm : c.supported_framerates.max? with _ | fps
      · exact absurd (List.max?_eq_none_iff.mp hm) hne
      · simp

/-- Claim C10: on well-formed format strings the comparator never returns 0:
every comparison yields -1 or 1, and an identical pair yields -1, so the
comparator is inconsistent on equal elements. -/
theorem sorter_never_zero (a b : String)
    (ha : (pixelCount a).isSome) (hb : (pixelCount b).isSome) :
    (sorter a b = some (-1) ∨ sorter a b = some 1) ∧ sorter a a = some (-1) := by
  obtain ⟨an, han⟩ := Option.isSome_iff_exists.mp ha
  obtain ⟨bn, hbn⟩ := Option.isSome_iff_exists.mp hb
  constructor
  · unfold sorter
    rw [han, hbn]
    simp only [Option.bind_eq_bind, Option.some_bind]
    split_ifs <;> simp
  · unfold sorter
    rw [han]
    simp only [Option.bind_eq_bind, Option.some_bind]
    simp [gt_iff_lt, lt_irrefl]

/-- On two well-formed format strings, the boolean le relation of the sort
implies the claimed order: ascending pixel count, ties in ascending string
order. -/
theorem fmtLe_specLe (a b : String)
    (ha : (pixelCount a).isSome) (hb : (pixelCount b).isSome) :
    fmtLe a b = true → specLe a b := by
  obtain ⟨an, han⟩ := Option.isSome_iff_exists.mp ha
  obtain ⟨bn, hbn⟩ := Option.isSome_iff_exists.mp hb
  rw [fmtLe_eq, han, hbn]
  unfold specLe
  rw [han, hbn]
  simp only [Option.getD_some, Bool.or_eq_true, Bool.and_eq_true, decide_eq_true_eq,
    Bool.not_eq_eq_eq_not, Bool.not_true, decide_eq_false_iff_not]
  rintro (h | ⟨heq, hba⟩)
  · exact Or.inl h
  · exact Or.inr ⟨heq, not_lt.mp hba⟩

/-- Claim C1: with an active camera whose format strings are all well
formed (WxH followed by anything, W and H decimal), refreshFormatList fills
the format dropdown with exactly the reported formats, in ascending order
of total pixel count, ties in ascending string order. -/
theorem refreshFormatList_sorted (s : SideState) (c : Camera)
    (hc : s.theCam = some c)
    (hp : ∀ f ∈ c.supported_formats, (pixelCount f).isSome) :
    ((refreshFormatListH s).1.listFormats).Perm c.supported_formats ∧
    ((refreshFormatListH s).1.listFormats).Pairwise specLe := by
  rw [refreshFormatListH_listFormats s c hc]
  have hperm : (sortFormats c.supported_formats).Perm c.supported_formats :=
    List.mergeSort_perm c.supported_formats fmtLe
  refine ⟨hperm, ?_⟩
  have hsorted :
      (sortFormats c.supported_formats).Pairwise (fun a b => fmtLe a b = true) :=
    List.sorted_mergeSort (fun a b d hab hbd => fmtLe_trans a b d hab hbd)
      fmtLe_total c.supported_formats
  refine hsorted.imp_of_mem ?_
  intro a b hma hmb hab
  exact fmtLe_specLe a b (hp a (hperm.mem_iff.mp hma)) (hp b (hperm.mem_iff.mp hmb)) hab

/-! ### Concrete witnesses -/

/-- A concrete camera with three formats and framerates including 30. -/
def camW : Camera :=
  { description := "Sony XCD-X710 0",
    supported_formats := ["800x600 RGB", "640x480 RGB", "640x480 MONO"],
    format := "640x480 RGB",
    supported_framerates := [15, 30] }

/-- A concrete camera reporting no framerates at all. -/
def camW2 : Camera :=
  { description := "Basler A601f 1", supported_formats := ["640x480 MONO"],
    format := "640x480 MONO", supported_framerates := [] }

/-- Sidebar state with camW active and two enumerated cameras. -/
def stateW : SideState :=
  { theCam := some camW, texture := none, cams := [camW, camW2],
    listCameraItems := [], listFormats := [], labelFps := "" }

/-- Sidebar state with camW2 (no framerates) active. -/
def stateW2 : SideState :=
  { theCam := some camW2, texture := none, cams := [camW, camW2],
    listCameraItems := [], listFormats := [], labelFps := "" }

/-- A concrete frame. -/
def imW : Image := { data := 7 }

/-- Witness for claim C1 at stateW. -/
theorem refreshFormatList_sorted_witness :
    ((refreshFormatListH stateW).1.listFormats).Perm camW.supported_formats ∧
    ((refreshFormatListH stateW).1.listFormats).Pairwise specLe :=
  refreshFormatList_sorted stateW camW rfl (by decide)

/-- Witness for claim C2 (amended) at stateW. -/
theorem setFrameRate_selects_witness :
    ∃ fps, Event.set_framerate camW fps ∈ (setFrameRateH stateW).2 ∧
      ((30 : Int) ∈ camW.supported_framerates → fps = 30) ∧
      ((30 : Int) ∉ camW.supported_framerates →
        camW.supported_framerates.max? = some fps) :=
  setFrameRate_selects stateW camW rfl (by decide)

/-- Witness for claim C3 at stateW. -/
theorem closeEvent_stops_once_witness :
    closeEventH stateW = [Event.stop camW] ∧
    (closeEventH stateW).count (Event.stop camW) = 1 :=
  (closeEvent_stops_once stateW).1 camW rfl

/-- Witness for claim C4 at stateW. -/
theorem onTimerTimeout_polls_witness :
    ((onTimerTimeout stateW imW).2.count (Event.get_data camW) = 1) ∧
    (onTimerTimeout stateW imW).1.texture = some imW :=
  (onTimerTimeout_polls stateW imW).2 camW rfl

/-- Witness for claim C5 with two cameras. -/
theorem refreshCameraList_items_witness :
    (refreshCameraListH stateW [camW, camW2]).1.listCameraItems =
      ("<No camera (" ++ toString ([camW, camW2] : List Camera).length ++ " available)>")
        :: ([camW, camW2] : List Camera).map (fun c => c.description) ∧
    (refreshCameraListH stateW [camW, camW2]).1.listCameraItems.length =
      ([camW, camW2] : List Camera).length + 1 ∧
    (refreshCameraListH stateW [camW, camW2]).1.listCameraItems[0 + 1]? =
      (([camW, camW2] : List Camera)[0]?).map (fun c => c.description) := by
  have h := (refreshCameraList_items stateW [camW, camW2]).2 (by decide)
  exact ⟨h.1, h.2.1, h.2.2 0 (by decide)⟩

/-- Witness for claim C6 at stateW (texture not yet created). -/
theorem onTimerTimeout_displays_latest_witness :
    (onTimerTimeout stateW imW).1.texture = some imW ∧
    (onTimerTimeout stateW imW).2 = [Event.get_data camW, Event.imshow imW] := by
  have h := onTimerTimeout_displays_latest stateW camW imW rfl
  exact ⟨h.1, h.2.1 rfl⟩

/-- Witness for claim C8: selecting index 1 of stateW. -/
theorem activateCamera_exclusive_witness :
    (activateCameraH stateW 1).1.theCam = stateW.cams[1 - 1]? ∧
    (activateCameraH stateW 1).1.texture = none ∧
    ((activateCameraH stateW 1).2).count (Event.stop camW) = 1 := by
  have h := activateCamera_exclusive stateW 1
  exact ⟨h.2.1 (by decide) (by decide), h.2.2.1, h.2.2.2.1 camW rfl⟩

/-- Witness for claim C9 at stateW2, whose camera reports no framerates. -/
theorem setFrameRate_empty_raises_witness :
    setFrameRateH stateW2 = (stateW2, [Event.raiseError]) :=
  (setFrameRate_empty_raises stateW2 camW2 rfl).1 rfl

/-- Witness for claim C10 on two concrete formats. -/
theorem sorter_never_zero_witness :
    (sorter "640x480 RGB" "800x600 RGB" = some (-1) ∨
      sorter "640x480 RGB" "800x600 RGB" = some 1) ∧
    sorter "640x480 RGB" "640x480 RGB" = some (-1) :=
  sorter_never_zero "640x480 RGB" "800x600 RGB" (by decide) (by decide)

end Cmu1394
